import Mathlib

/-!
Verification of the Scheduling and Enrollment Consistency Engine of the
ClassesService repository: academic-year registry, timetable allocator,
class roster rollover, and attendance recorder.

The definitions below are a shallow embedding of the Express route handlers
(`router.js` and its variant copy) and of the SQL schema files.  Database
tables become Lean lists of rows; each handler becomes a function from its
request parameters and the current table contents to the new table contents
paired with an `Except` result.  HTTP status codes are mapped to the error
taxonomy of the spec: 400 to `validation`, 404 to `notFound`, 409 to
`conflict`, 403 to `forbidden`, 500 to `server`.

Modelling conventions:
- uuid columns are modelled as `Nat` identifiers; freshly generated ids
  (`gen_random_uuid()`) are supplied by the caller as an explicit `nextId`
  argument.
- date and time-of-day strings (`YYYY-MM-DD` dates compared via `new Date`,
  `HH:MM` times compared lexicographically) are modelled as `Int` values;
  both comparisons are order isomorphic to integer comparison.
- request-body fields that JavaScript tests for truthiness are modelled as
  `Option` values, with `none` standing for an absent or empty field.
  (Date strings and uuid strings are truthy exactly when present.)
- a transaction that rolls back leaves the table list unchanged; every
  handler returns the post-state first and the HTTP result second.
-/

namespace ClassesService

/-- Error taxonomy of the service, keyed by the HTTP status codes the
handlers return: 400 validation, 409 conflict, 404 not found, 403
forbidden, 500 server/transaction failure. -/
inductive ApiError where
  | validation (msg : String)
  | conflict (msg : String)
  | notFound (msg : String)
  | forbidden (msg : String)
  | server (msg : String)
  deriving DecidableEq, Repr

deriving instance DecidableEq for Except

/-- True exactly on a 400 validation error result. -/
def errIsValidation {α : Type} : Except ApiError α → Bool
  | .error (.validation _) => true
  | _ => false

/-- True exactly on a 409 conflict error result. -/
def errIsConflict {α : Type} : Except ApiError α → Bool
  | .error (.conflict _) => true
  | _ => false

/-- Test that a string is blank, i.e. that JavaScript `s.trim()` is
empty (falsy): every character is whitespace.  `String.trim` itself is
not kernel-reducible, so the embedding uses this equivalent form. -/
def strBlank (s : String) : Bool :=
  s.toList.all Char.isWhitespace

/-- True exactly on a successful result. -/
def resIsOk {α : Type} : Except ApiError α → Bool
  | .ok _ => true
  | _ => false

/-! ## Academic Year Registry

Rows of `public.academic_years`.  The insert in POST /api/academic-years
always binds `branch_id`, and PUT /api/academic-years/:id rebinds it when
the year ends up active, so `branch_id` is modelled as `Option Nat`
(nullable in the schema). -/

/-- Row of the `public.academic_years` table. -/
structure AcademicYear where
  year_name : String
  start_date : Int
  end_date : Int
  status : String
  branch_id : Option Nat
  deriving DecidableEq, Repr

/-- Number of rows of the academic-years table that are active for the
given branch. -/
def countActiveYears (branchId : Nat) (years : List AcademicYear) : Nat :=
  (years.filter (fun y => y.status == "active" && y.branch_id == some branchId)).length

/-- Handler POST /api/academic-years.  Validations in source order:
required fields, status enum, date order, per-branch duplicate name
(409), one active year per branch (409); then the insert.  Date strings
are modelled as `Int` (always truthy), so the required-field check only
concerns the two string fields. -/
def createAcademicYear (branchId : Nat) (year_name : String)
    (start_date end_date : Int) (status : String)
    (years : List AcademicYear) :
    List AcademicYear × Except ApiError AcademicYear :=
  if year_name == "" || status == "" then
    (years, .error (.validation "year_name, start_date, end_date, and status are required"))
  else if !(["upcoming", "active", "completed"].contains status) then
    (years, .error (.validation "Status must be upcoming, active, or completed"))
  else if start_date ≥ end_date then
    (years, .error (.validation "End date must be after start date"))
  else if years.any (fun y => y.year_name == year_name && y.branch_id == some branchId) then
    (years, .error (.conflict "Academic year already exists for this branch"))
  else if status == "active" &&
      years.any (fun y => y.status == "active" && y.branch_id == some branchId) then
    (years, .error (.conflict "An active academic year already exists for this branch"))
  else
    let row : AcademicYear :=
      { year_name := year_name, start_date := start_date, end_date := end_date,
        status := status, branch_id := some branchId }
    (years ++ [row], .ok row)

/-- Handler PUT /api/academic-years/:id (the year activation path).  The
target is addressed by `year_name = :id` with no branch filter; all steps
run inside one transaction.  Optional body fields are `none` when absent
(or empty, hence falsy) in the request.  Step order from source: fetch
target (404), status enum (400), date order (400), rename duplicate
check (409), demote the active years of the caller branch when the
requested status is active, then the dynamic UPDATE of every row whose
`year_name` matches the target, binding `branch_id` when the final status
is active. -/
def updateAcademicYear (branchId : Nat) (id : String)
    (year_name : Option String) (start_date end_date : Option Int)
    (status : Option String)
    (years : List AcademicYear) :
    List AcademicYear × Except ApiError Unit :=
  match years.find? (fun y => y.year_name == id) with
  | none => (years, .error (.notFound "Academic year not found"))
  | some currentYear =>
    if status.isSome && !(["upcoming", "active", "completed"].contains (status.getD "")) then
      (years, .error (.validation "Status must be one of: upcoming, active, completed"))
    else if start_date.isSome && end_date.isSome &&
        (start_date.getD 0) ≥ (end_date.getD 0) then
      (years, .error (.validation "End date must be after start date"))
    else if year_name.isSome && year_name.getD "" != id &&
        years.any (fun y => y.year_name == year_name.getD "") then
      (years, .error (.conflict "Academic year with this name already exists"))
    else
      -- when activating, first demote the active years of the caller branch
      let demoted :=
        if status == some "active" then
          years.map (fun y =>
            if y.branch_id == some branchId && y.status == "active" then
              { y with status := "completed" }
            else y)
        else years
      -- dynamic UPDATE of all rows with year_name = id
      let finalStatus := status.getD currentYear.status
      let updated :=
        demoted.map (fun y =>
          if y.year_name == id then
            { y with
              year_name := year_name.getD y.year_name,
              start_date := start_date.getD y.start_date,
              end_date := end_date.getD y.end_date,
              status := status.getD y.status,
              branch_id := if finalStatus == "active" then some branchId else y.branch_id }
          else y)
      (updated, .ok ())

/-! ## Shared row types -/

/-- Row of the `branch.classes` table (see the classes schema file).
Fields that are nullable in the schema are `Option`s; `status` defaults
to Active on insert. -/
structure ClassRow where
  id : Nat
  branch_id : Nat
  class_name : String
  grade : Option String
  standard : String
  teacher_id : Option Nat
  semester : String
  capacity : Int
  room_number : Option String
  schedule : Option String
  academic_year : String
  status : String
  deriving DecidableEq, Repr

/-- Row of the `public.users` table, restricted to the columns the
handlers consult. -/
structure UserRow where
  id : Nat
  name : String
  role : String
  status : String
  branch_id : Nat
  deriving DecidableEq, Repr

/-- Row of the `branch.timetables` table. -/
structure TimetableSlot where
  id : Nat
  branch_id : Nat
  class_id : Nat
  subject : String
  teacher_id : Nat
  day_of_week : Int
  start_time : Int
  end_time : Int
  room_number : Option String
  academic_year : String
  semester : String
  deriving DecidableEq, Repr

/-! ## Timetable Allocator -/

/-- Conflict query of POST /api/classes/:id/timetable: existing slots of
the same class and day whose interval collides with the requested
`[st, en)` according to the three-disjunct SQL condition. -/
def conflictCheck (timetables : List TimetableSlot) (classId : Nat)
    (day : Int) (st en : Int) : Bool :=
  timetables.any (fun t =>
    t.class_id == classId && t.day_of_week == day &&
      ((decide (t.start_time ≤ st) && decide (t.end_time > st)) ||
       (decide (t.start_time < en) && decide (t.end_time ≥ en)) ||
       (decide (t.start_time ≥ st) && decide (t.end_time ≤ en))))

/-- Handler POST /api/classes/:id/timetable.  Checks in source order:
class ownership (404), subject, teacher presence, day-of-week range,
time presence, start before end (all 400), teacher validity (400),
per-class conflict query (409); then the insert bound to the class
academic year and semester. -/
def allocateSlot (branchId classId : Nat) (subject : Option String)
    (teacher_id : Option Nat) (day_of_week : Option Int)
    (start_time end_time : Option Int) (room_number : Option String)
    (newId : Nat) (classes : List ClassRow) (users : List UserRow)
    (timetables : List TimetableSlot) :
    List TimetableSlot × Except ApiError TimetableSlot :=
  match classes.find? (fun c => c.id == classId && c.branch_id == branchId) with
  | none => (timetables, .error (.notFound "Class not found"))
  | some classData =>
    if strBlank (subject.getD "") then
      (timetables, .error (.validation "Subject is required"))
    else if teacher_id.isNone then
      (timetables, .error (.validation "Teacher is required"))
    else if day_of_week.isNone || day_of_week.getD 0 < 1 || day_of_week.getD 0 > 7 then
      (timetables, .error (.validation "Valid day of week (1-7) is required"))
    else if start_time.isNone || end_time.isNone then
      (timetables, .error (.validation "Start time and end time are required"))
    else if start_time.getD 0 ≥ end_time.getD 0 then
      (timetables, .error (.validation "End time must be after start time"))
    else if !(users.any (fun u => u.id == teacher_id.getD 0 && u.role == "teacher" &&
        u.status == "Active" && u.branch_id == branchId)) then
      (timetables, .error (.validation "Invalid teacher assignment"))
    else if conflictCheck timetables classId (day_of_week.getD 0)
        (start_time.getD 0) (end_time.getD 0) then
      (timetables, .error (.conflict "Time conflict detected! This slot overlaps with an existing class."))
    else
      -- the handler re-queries the class row (without branch filter) for its year
      let academicYear :=
        ((classes.find? (fun c => c.id == classId)).map (fun c => c.academic_year)).getD "2024-25"
      let slot : TimetableSlot :=
        { id := newId, branch_id := branchId, class_id := classId,
          subject := subject.getD "", teacher_id := teacher_id.getD 0,
          day_of_week := day_of_week.getD 0, start_time := start_time.getD 0,
          end_time := end_time.getD 0, room_number := room_number,
          academic_year := academicYear, semester := classData.semester }
      (timetables ++ [slot], .ok slot)

/-! ## Class Roster Rollover -/

/-- Response payload of POST /api/classes/bulk-create. -/
structure RolloverData where
  createdCount : Nat
  sourceYear : String
  targetYear : String
  deriving DecidableEq, Repr

/-- Active-year query of POST /api/classes/bulk-create: status active,
ORDER BY start_date DESC LIMIT 1, with no branch filter.  Ties on
start_date resolve to the earlier row of the scan, as the SQL leaves
their order unspecified. -/
def resolveActiveYearGlobal (years : List AcademicYear) : Option AcademicYear :=
  years.foldl (fun acc y =>
    if y.status == "active" then
      match acc with
      | none => some y
      | some b => if y.start_date > b.start_date then some y else acc
    else acc) none

/-- Duplicate of a source class for the rollover insert: same columns,
fresh id, target academic year, status Active. -/
def rolloverCopy (newId : Nat) (newYear : String) (cls : ClassRow) : ClassRow :=
  { cls with id := newId, academic_year := newYear, status := "Active" }

/-- Source-classes query of the rollover: Active classes of the branch
for the given academic year. -/
def sourceClassesOf (branchId : Nat) (year : String) (classes : List ClassRow) :
    List ClassRow :=
  classes.filter (fun c =>
    c.branch_id == branchId && c.academic_year == year && c.status == "Active")

/-- Guard query of the rollover: number of classes of the branch under
the given academic year, any status. -/
def targetClassCount (branchId : Nat) (year : String) (classes : List ClassRow) : Nat :=
  (classes.filter (fun c =>
    c.branch_id == branchId && c.academic_year == year)).length

/-- Insert-failure oracle under which every row INSERT succeeds. -/
def noInsertFailure : Nat → Bool := fun _ => false

/-- Insert-failure oracle under which every row INSERT raises. -/
def alwaysInsertFailure : Nat → Bool := fun _ => true

/-- Handler POST /api/classes/bulk-create.  Steps in source order:
required target year (400), global active-year lookup (400 when none),
source classes of the caller branch for that year (404 when empty),
guard against existing classes under the target year (409), then one
INSERT per source class inside a single transaction.  `insertFails i`
says whether the i-th INSERT raises; any failure rolls the whole batch
back, so the observable post-state is the input table. -/
def rollover (branchId : Nat) (newAcademicYear : Option String)
    (years : List AcademicYear) (classes : List ClassRow)
    (insertFails : Nat → Bool) (nextId : Nat) :
    List ClassRow × Except ApiError RolloverData :=
  if strBlank (newAcademicYear.getD "") then
    (classes, .error (.validation "New academic year is required"))
  else
    let newYear := newAcademicYear.getD ""
    match resolveActiveYearGlobal years with
    | none => (classes, .error (.validation "No active academic year found"))
    | some activeYear =>
      let currentAcademicYear := activeYear.year_name
      let sourceClasses := sourceClassesOf branchId currentAcademicYear classes
      if sourceClasses.isEmpty then
        (classes, .error (.notFound "No classes found in the current academic year to duplicate"))
      else if targetClassCount branchId newYear classes != 0 then
        (classes, .error (.conflict "Classes already exist for the specified academic year"))
      else if (List.range sourceClasses.length).any insertFails then
        (classes, .error (.server "Failed to bulk create classes"))
      else
        let newRows := sourceClasses.enum.map (fun p => rolloverCopy (nextId + p.1) newYear p.2)
        (classes ++ newRows,
         .ok { createdCount := newRows.length, sourceYear := currentAcademicYear,
               targetYear := newYear })

/-! ## Attendance Recorder -/

/-- Row of the `branch.attendance` table (timestamps omitted). -/
structure AttendanceRow where
  id : Nat
  branch_id : Nat
  student_id : Nat
  class_id : Nat
  teacher_id : Nat
  attendance_date : String
  status : String
  subject : Option String
  remarks : Option String
  academic_year : String
  deriving DecidableEq, Repr

/-- One element of the `students` array of POST /api/classes/:id/attendance. -/
structure AttendanceEntry where
  student_id : Option Nat
  status : String
  remarks : Option String
  deriving DecidableEq, Repr

/-- Date format check of the handler: the regex for YYYY-MM-DD. -/
def validDateFormat (s : String) : Bool :=
  match s.toList with
  | [a, b, c, d, '-', e, f, '-', g, h] =>
    a.isDigit && b.isDigit && c.isDigit && d.isDigit &&
      e.isDigit && f.isDigit && g.isDigit && h.isDigit
  | _ => false

/-- Per-entry loop of the attendance transaction.  State is the
attendance table, the created and updated counters and the next fresh
id.  The lookup is by (student, date, class); on a hit the existing row
(first match, by its id) is updated in place, otherwise an INSERT runs,
which raises when the student id violates the foreign key on
`branch.students` or when another row already holds the same
(student_id, attendance_date) pair, the unique constraint
`attendance_student_id_attendance_date_key`.  `none` models the raise,
which aborts the whole transaction. -/
def processAttendanceEntries (branchId userId classId : Nat)
    (attendance_date : String) (subject : Option String)
    (academicYear : String) (studentIds : List Nat) :
    List AttendanceEntry → List AttendanceRow × Nat × Nat × Nat →
    Option (List AttendanceRow × Nat × Nat × Nat)
  | [], st => some st
  | entry :: rest, (att, created, updated, nid) =>
    let sid := entry.student_id.getD 0
    match att.find? (fun r => r.student_id == sid &&
        r.attendance_date == attendance_date && r.class_id == classId) with
    | some r0 =>
      processAttendanceEntries branchId userId classId attendance_date subject
        academicYear studentIds rest
        (att.map (fun r =>
          if r.id == r0.id then
            { r with status := entry.status, subject := subject, remarks := entry.remarks }
          else r),
         created, updated + 1, nid)
    | none =>
      if studentIds.contains sid &&
          att.all (fun r => !(r.student_id == sid && r.attendance_date == attendance_date)) then
        processAttendanceEntries branchId userId classId attendance_date subject
          academicYear studentIds rest
          (att ++ [{ id := nid, branch_id := branchId, student_id := sid,
                     class_id := classId, teacher_id := userId,
                     attendance_date := attendance_date, status := entry.status,
                     subject := subject, remarks := entry.remarks,
                     academic_year := academicYear }],
           created + 1, updated, nid + 1)
      else none

/-- Handler POST /api/classes/:id/attendance.  Checks in source order:
class ownership (404), class-teacher authorization (403), date presence,
students array presence, date format, then the per-entry validation loop
(student id present and status among Present/Absent/Late, 400 on the
first offender); only then the transaction over the entries.  On a
transaction failure the table is unchanged (rollback).  On success the
result carries the created and updated counters and the total number of
entries processed. -/
def markAttendance (branchId userId : Nat) (role : String) (classId : Nat)
    (attendance_date : Option String) (students : List AttendanceEntry)
    (subject : Option String) (nextId : Nat) (classes : List ClassRow)
    (studentIds : List Nat) (attendance : List AttendanceRow) :
    List AttendanceRow × Except ApiError (Nat × Nat × Nat) :=
  match classes.find? (fun c => c.id == classId && c.branch_id == branchId) with
  | none => (attendance, .error (.notFound "Class not found"))
  | some classData =>
    if role == "teacher" && classData.teacher_id != some userId then
      (attendance, .error (.forbidden "Access denied. You are not the class teacher."))
    else if attendance_date.isNone then
      (attendance, .error (.validation "Attendance date is required"))
    else if students.isEmpty then
      (attendance, .error (.validation "Students array is required"))
    else if !(validDateFormat (attendance_date.getD "")) then
      (attendance, .error (.validation "Invalid date format. Use YYYY-MM-DD"))
    else
      match students.find? (fun e => e.student_id.isNone ||
          !(["Present", "Absent", "Late"].contains e.status)) with
      | some _ => (attendance, .error (.validation "Invalid student data or status"))
      | none =>
        match processAttendanceEntries branchId userId classId
            (attendance_date.getD "") subject classData.academic_year studentIds
            students (attendance, 0, 0, nextId) with
        | some (att2, created, updated, _) =>
          (att2, .ok (created, updated, students.length))
        | none => (attendance, .error (.server "Failed to mark attendance"))

/-- Invariant of the attendance table: at most one row per
(student_id, attendance_date), as enforced by the unique constraint
`attendance_student_id_attendance_date_key` of the schema. -/
def attendanceAtMostOnePerStudentDate (rows : List AttendanceRow) : Prop :=
  rows.Pairwise (fun a b =>
    ¬(a.student_id = b.student_id ∧ a.attendance_date = b.attendance_date))

instance (rows : List AttendanceRow) :
    Decidable (attendanceAtMostOnePerStudentDate rows) :=
  by unfold attendanceAtMostOnePerStudentDate; infer_instance

/-! ## Class create and update -/

/-- JavaScript `v || d` on a numeric field: absent and 0 are falsy. -/
def jsNumOr (v : Option Int) (d : Int) : Int :=
  if v.getD 0 == 0 then d else v.getD 0

/-- JavaScript `v || d` on a string field: absent and empty are falsy. -/
def jsStrOr (v : Option String) (d : String) : String :=
  if v.getD "" == "" then d else v.getD ""

/-- JavaScript `v || null` on a string field. -/
def jsStrOrNull (v : Option String) : Option String :=
  if v.getD "" == "" then none else v

/-- Middleware validateClassData, shared by POST / and PUT /:id: class
name, standard and academic year must be non-blank; a truthy capacity
outside [1, 100] is rejected, so a capacity of 0 (falsy) bypasses the
guard. -/
def validateClassData (class_name standard academic_year : Option String)
    (capacity : Option Int) : Option ApiError :=
  if strBlank (class_name.getD "") then
    some (.validation "Class name is required")
  else if strBlank (standard.getD "") then
    some (.validation "Standard is required")
  else if strBlank (academic_year.getD "") then
    some (.validation "Academic year is required")
  else if capacity.getD 0 != 0 && (capacity.getD 0 < 1 || capacity.getD 0 > 100) then
    some (.validation "Capacity must be between 1 and 100")
  else none

/-- Handler POST /api/classes (after the validateClassData middleware):
duplicate name check per branch and year (409), optional teacher
validity (400) and exclusivity (409) checks, then the insert with the
defaulted columns, `capacity || 30` among them. -/
def createClass (branchId : Nat) (class_name grade standard : Option String)
    (teacher_id : Option Nat) (semester : Option String) (capacity : Option Int)
    (room_number schedule academic_year : Option String) (newId : Nat)
    (classes : List ClassRow) (users : List UserRow) :
    List ClassRow × Except ApiError ClassRow :=
  match validateClassData class_name standard academic_year capacity with
  | some e => (classes, .error e)
  | none =>
    if classes.any (fun c => c.class_name == class_name.getD "" &&
        c.academic_year == academic_year.getD "" && c.branch_id == branchId) then
      (classes, .error (.conflict "Class with this name already exists in the specified academic year"))
    else if teacher_id.isSome && !(users.any (fun u => u.id == teacher_id.getD 0 &&
        u.role == "teacher" && u.status == "Active" && u.branch_id == branchId)) then
      (classes, .error (.validation "Invalid teacher assignment"))
    else if teacher_id.isSome && classes.any (fun c => c.teacher_id == teacher_id &&
        c.academic_year == academic_year.getD "") then
      (classes, .error (.conflict "Teacher is already assigned to another class in this academic year"))
    else
      let row : ClassRow :=
        { id := newId, branch_id := branchId, class_name := class_name.getD "",
          grade := jsStrOrNull grade, standard := standard.getD "",
          teacher_id := teacher_id, semester := jsStrOr semester "First Semester",
          capacity := jsNumOr capacity 30, room_number := jsStrOrNull room_number,
          schedule := jsStrOrNull schedule, academic_year := academic_year.getD "",
          status := "Active" }
      (classes ++ [row], .ok row)

/-- Handler PUT /api/classes/:id (after the validateClassData
middleware): class ownership (404), duplicate name excluding the class
itself (409), teacher checks when the teacher changes, then the UPDATE
setting every column from the request, `capacity || 30` among them. -/
def updateClass (branchId id : Nat) (class_name grade standard : Option String)
    (teacher_id : Option Nat) (semester : Option String) (capacity : Option Int)
    (room_number schedule academic_year : Option String)
    (classes : List ClassRow) (users : List UserRow) :
    List ClassRow × Except ApiError Unit :=
  match validateClassData class_name standard academic_year capacity with
  | some e => (classes, .error e)
  | none =>
    match classes.find? (fun c => c.id == id && c.branch_id == branchId) with
    | none => (classes, .error (.notFound "Class not found"))
    | some classData =>
      if classes.any (fun c => c.class_name == class_name.getD "" &&
          c.academic_year == academic_year.getD "" && c.branch_id == branchId &&
          c.id != id) then
        (classes, .error (.conflict "Class with this name already exists in the specified academic year"))
      else if teacher_id.isSome && teacher_id != classData.teacher_id &&
          !(users.any (fun u => u.id == teacher_id.getD 0 && u.role == "teacher" &&
            u.status == "Active" && u.branch_id == branchId)) then
        (classes, .error (.validation "Invalid teacher assignment"))
      else if teacher_id.isSome && teacher_id != classData.teacher_id &&
          classes.any (fun c => c.teacher_id == teacher_id &&
            c.academic_year == academic_year.getD "" && c.id != id) then
        (classes, .error (.conflict "Teacher is already assigned to another class in this academic year"))
      else
        (classes.map (fun c =>
          if c.id == id && c.branch_id == branchId then
            { c with
              class_name := class_name.getD "",
              grade := jsStrOrNull grade,
              standard := standard.getD "",
              teacher_id := teacher_id,
              semester := jsStrOr semester "First Semester",
              capacity := jsNumOr capacity 30,
              room_number := jsStrOrNull room_number,
              schedule := jsStrOrNull schedule,
              academic_year := academic_year.getD "" }
          else c),
         .ok ())

/-! ## Theorems

### Claim C1: single-active-year invariant -/

/-- C1: the claim states that after any sequence of academic-year create
and activate operations at most one academic year of a branch is active.
The code violates it: the create handler checks name uniqueness only per
branch, so two branches may hold a year of the same name, while the
activation UPDATE addresses the target by `year_name` alone.  Creating
year 2025-26 in branch 1 and in branch 2 and then activating 2025-26
from branch 1 turns both rows into active years of branch 1: branch 1
ends with two active academic years. -/
theorem single_active_year_invariant_violated :
    resIsOk (createAcademicYear 1 "2025-26" 0 10 "upcoming" []).2 = true ∧
    resIsOk (createAcademicYear 2 "2025-26" 0 10 "upcoming"
      (createAcademicYear 1 "2025-26" 0 10 "upcoming" []).1).2 = true ∧
    resIsOk (updateAcademicYear 1 "2025-26" none none none (some "active")
      (createAcademicYear 2 "2025-26" 0 10 "upcoming"
        (createAcademicYear 1 "2025-26" 0 10 "upcoming" []).1).1).2 = true ∧
    countActiveYears 1
      (updateAcademicYear 1 "2025-26" none none none (some "active")
        (createAcademicYear 2 "2025-26" 0 10 "upcoming"
          (createAcademicYear 1 "2025-26" 0 10 "upcoming" []).1).1).1 = 2 := by
  decide

/-! ### Claim C8: academic-year create contract -/

/-- Date-order check of academic-year create: when start is not before
end, the handler rejects with a 400 validation error and the table is
unchanged, whatever else the request holds. -/
theorem create_dates_invalid (branchId : Nat) (year_name : String)
    (start_date end_date : Int) (status : String) (years : List AcademicYear)
    (h : end_date ≤ start_date) :
    (createAcademicYear branchId year_name start_date end_date status years).1 = years ∧
    errIsValidation
      (createAcademicYear branchId year_name start_date end_date status years).2 = true := by
  unfold createAcademicYear
  split
  · exact ⟨rfl, rfl⟩
  · split
    · exact ⟨rfl, rfl⟩
    · exact ⟨rfl, rfl⟩

/-- Status-enum check of academic-year create: a status outside the
three enum values is rejected with a 400 validation error. -/
theorem create_status_invalid (branchId : Nat) (year_name : String)
    (start_date end_date : Int) (status : String) (years : List AcademicYear)
    (h : status ∉ (["upcoming", "active", "completed"] : List String)) :
    (createAcademicYear branchId year_name start_date end_date status years).1 = years ∧
    errIsValidation
      (createAcademicYear branchId year_name start_date end_date status years).2 = true := by
  unfold createAcademicYear
  split
  · exact ⟨rfl, rfl⟩
  · rw [if_pos (by simp [h])]
    exact ⟨rfl, rfl⟩

/-- Duplicate-name check of academic-year create: a year of the same
name in the same branch yields a 409 conflict. -/
theorem create_duplicate_name_conflict (branchId : Nat) (year_name : String)
    (start_date end_date : Int) (status : String) (years : List AcademicYear)
    (hyn : year_name ≠ "")
    (hst : status ∈ (["upcoming", "active", "completed"] : List String))
    (hd : start_date < end_date)
    (hdup : ∃ y ∈ years, y.year_name = year_name ∧ y.branch_id = some branchId) :
    createAcademicYear branchId year_name start_date end_date status years =
      (years, .error (.conflict "Academic year already exists for this branch")) := by
  have hst' : status ≠ "" := by
    rcases (by simpa using hst : status = "upcoming" ∨ status = "active" ∨ status = "completed")
      with rfl | rfl | rfl <;> decide
  unfold createAcademicYear
  rw [if_neg (by simp [hyn, hst']), if_neg (by simp [hst]), if_neg (by omega),
    if_pos (by simp only [List.any_eq_true, Bool.and_eq_true, beq_iff_eq]; exact hdup)]

/-- Single-active check of academic-year create: creating an active year
while the branch already has one yields a 409 conflict. -/
theorem create_active_exists_conflict (branchId : Nat) (year_name : String)
    (start_date end_date : Int) (status : String) (years : List AcademicYear)
    (hyn : year_name ≠ "")
    (hst : status = "active")
    (hd : start_date < end_date)
    (hdup : ¬∃ y ∈ years, y.year_name = year_name ∧ y.branch_id = some branchId)
    (hact : ∃ y ∈ years, y.status = "active" ∧ y.branch_id = some branchId) :
    createAcademicYear branchId year_name start_date end_date status years =
      (years, .error (.conflict "An active academic year already exists for this branch")) := by
  subst hst
  unfold createAcademicYear
  rw [if_neg (by simp [hyn]), if_neg (by simp), if_neg (by omega),
    if_neg (by simp only [List.any_eq_true, Bool.and_eq_true, beq_iff_eq]; exact hdup),
    if_pos (by simp only [List.any_eq_true, Bool.and_eq_true, beq_iff_eq, true_and]; exact hact)]

/-- Success path of academic-year create: all checks pass, the row is
appended and returned. -/
theorem create_success (branchId : Nat) (year_name : String)
    (start_date end_date : Int) (status : String) (years : List AcademicYear)
    (hyn : year_name ≠ "")
    (hst : status ∈ (["upcoming", "active", "completed"] : List String))
    (hd : start_date < end_date)
    (hdup : ¬∃ y ∈ years, y.year_name = year_name ∧ y.branch_id = some branchId)
    (hact : status = "active" → ¬∃ y ∈ years, y.status = "active" ∧ y.branch_id = some branchId) :
    createAcademicYear branchId year_name start_date end_date status years =
      (years ++ [⟨year_name, start_date, end_date, status, some branchId⟩],
       .ok ⟨year_name, start_date, end_date, status, some branchId⟩) := by
  have hst' : status ≠ "" := by
    rcases (by simpa using hst : status = "upcoming" ∨ status = "active" ∨ status = "completed")
      with rfl | rfl | rfl <;> decide
  unfold createAcademicYear
  rw [if_neg (by simp [hyn, hst']), if_neg (by simp [hst]), if_neg (by omega),
    if_neg (by simp only [List.any_eq_true, Bool.and_eq_true, beq_iff_eq]; exact hdup),
    if_neg (by
      simp only [Bool.and_eq_true, beq_iff_eq, List.any_eq_true, not_and]
      intro hsa
      exact fun hany => hact hsa (by simpa using hany))]

/-- C8 counterexample: the claim says a duplicate year name for the
branch fails with a ValidationError, but the handler returns a 409
conflict there, not a 400: creating year 2024-25 for branch 1 twice
yields a conflict error. -/
theorem create_duplicate_name_is_conflict_not_validation :
    errIsValidation (createAcademicYear 1 "2024-25" 0 10 "upcoming"
      [⟨"2024-25", 0, 10, "upcoming", some 1⟩]).2 = false ∧
    errIsConflict (createAcademicYear 1 "2024-25" 0 10 "upcoming"
      [⟨"2024-25", 0, 10, "upcoming", some 1⟩]).2 = true ∧
    (createAcademicYear 1 "2024-25" 0 10 "upcoming"
      [⟨"2024-25", 0, 10, "upcoming", some 1⟩]).1 =
      [⟨"2024-25", 0, 10, "upcoming", some 1⟩] := by
  decide

/-- C8 (amended): academic-year create fails with a ValidationError if
start is not before end or if the status is outside
upcoming/active/completed; it fails with a ConflictError if a year of
the same name already exists for the branch, and with a ConflictError if
the status is active while the branch already has an active year; when
every check passes it persists the row and returns it. -/
theorem academic_year_create_contract (branchId : Nat) (year_name : String)
    (start_date end_date : Int) (status : String) (years : List AcademicYear) :
    (end_date ≤ start_date →
      (createAcademicYear branchId year_name start_date end_date status years).1 = years ∧
      errIsValidation
        (createAcademicYear branchId year_name start_date end_date status years).2 = true) ∧
    (status ∉ (["upcoming", "active", "completed"] : List String) →
      (createAcademicYear branchId year_name start_date end_date status years).1 = years ∧
      errIsValidation
        (createAcademicYear branchId year_name start_date end_date status years).2 = true) ∧
    (year_name ≠ "" → status ∈ (["upcoming", "active", "completed"] : List String) →
      start_date < end_date →
      (∃ y ∈ years, y.year_name = year_name ∧ y.branch_id = some branchId) →
      createAcademicYear branchId year_name start_date end_date status years =
        (years, .error (.conflict "Academic year already exists for this branch"))) ∧
    (year_name ≠ "" → status = "active" → start_date < end_date →
      (¬∃ y ∈ years, y.year_name = year_name ∧ y.branch_id = some branchId) →
      (∃ y ∈ years, y.status = "active" ∧ y.branch_id = some branchId) →
      createAcademicYear branchId year_name start_date end_date status years =
        (years, .error (.conflict "An active academic year already exists for this branch"))) ∧
    (year_name ≠ "" → status ∈ (["upcoming", "active", "completed"] : List String) →
      start_date < end_date →
      (¬∃ y ∈ years, y.year_name = year_name ∧ y.branch_id = some branchId) →
      (status = "active" → ¬∃ y ∈ years, y.status = "active" ∧ y.branch_id = some branchId) →
      createAcademicYear branchId year_name start_date end_date status years =
        (years ++ [⟨year_name, start_date, end_date, status, some branchId⟩],
         .ok ⟨year_name, start_date, end_date, status, some branchId⟩)) :=
  ⟨fun h => create_dates_invalid branchId year_name start_date end_date status years h,
   fun h => create_status_invalid branchId year_name start_date end_date status years h,
   fun h1 h2 h3 h4 =>
     create_duplicate_name_conflict branchId year_name start_date end_date status years h1 h2 h3 h4,
   fun h1 h2 h3 h4 h5 =>
     create_active_exists_conflict branchId year_name start_date end_date status years h1 h2 h3 h4 h5,
   fun h1 h2 h3 h4 h5 =>
     create_success branchId year_name start_date end_date status years h1 h2 h3 h4 h5⟩

/-- C8 witness: concrete instances of every branch of the create
contract. -/
theorem academic_year_create_contract_witness :
    ((createAcademicYear 1 "Y" 5 3 "upcoming" []).1 = [] ∧
      errIsValidation (createAcademicYear 1 "Y" 5 3 "upcoming" []).2 = true) ∧
    ((createAcademicYear 1 "Y" 0 10 "bogus" []).1 = [] ∧
      errIsValidation (createAcademicYear 1 "Y" 0 10 "bogus" []).2 = true) ∧
    (createAcademicYear 1 "2024-25" 0 10 "upcoming"
        [⟨"2024-25", 0, 10, "upcoming", some 1⟩] =
      ([⟨"2024-25", 0, 10, "upcoming", some 1⟩],
       .error (.conflict "Academic year already exists for this branch"))) ∧
    (createAcademicYear 1 "2025-26" 0 10 "active"
        [⟨"2024-25", 0, 10, "active", some 1⟩] =
      ([⟨"2024-25", 0, 10, "active", some 1⟩],
       .error (.conflict "An active academic year already exists for this branch"))) ∧
    (createAcademicYear 1 "2024-25" 0 10 "upcoming" [] =
      ([⟨"2024-25", 0, 10, "upcoming", some 1⟩],
       .ok ⟨"2024-25", 0, 10, "upcoming", some 1⟩)) := by
  refine ⟨(academic_year_create_contract 1 "Y" 5 3 "upcoming" []).1 (by decide),
    (academic_year_create_contract 1 "Y" 0 10 "bogus" []).2.1 (by decide),
    (academic_year_create_contract 1 "2024-25" 0 10 "upcoming" _).2.2.1
      (by decide) (by decide) (by decide) (by decide),
    (academic_year_create_contract 1 "2025-26" 0 10 "active" _).2.2.2.1
      (by decide) rfl (by decide) (by decide) (by decide),
    (academic_year_create_contract 1 "2024-25" 0 10 "upcoming" []).2.2.2.2
      (by decide) (by decide) (by decide) (by decide) (by decide)⟩

/-! ### Claim C2: per-class overlap rejection -/

/-- Equivalence of the three-disjunct SQL overlap condition with the
half-open interval intersection, for non-degenerate intervals. -/
theorem overlap_condition_equiv (ts te st en : Int) (hts : ts < te) (hst : st < en) :
    ((ts ≤ st ∧ te > st) ∨ (ts < en ∧ te ≥ en) ∨ (ts ≥ st ∧ te ≤ en)) ↔
      (ts < en ∧ te > st) := by
  omega

/-- The conflict query fires exactly when some persisted slot of the
same class and day intersects the requested half-open interval, provided
all the intervals involved are non-degenerate. -/
theorem conflictCheck_iff (tts : List TimetableSlot) (classId : Nat) (day st en : Int)
    (hst : st < en) (hwf : ∀ t ∈ tts, t.start_time < t.end_time) :
    conflictCheck tts classId day st en = true ↔
      ∃ t ∈ tts, t.class_id = classId ∧ t.day_of_week = day ∧
        t.start_time < en ∧ t.end_time > st := by
  unfold conflictCheck
  simp only [List.any_eq_true, Bool.and_eq_true, Bool.or_eq_true, beq_iff_eq,
    decide_eq_true_eq]
  constructor
  · rintro ⟨t, ht, ⟨⟨hc, hd⟩, hdisj⟩⟩
    refine ⟨t, ht, hc, hd, ?_⟩
    have := hwf t ht
    omega
  · rintro ⟨t, ht, hc, hd, h1, h2⟩
    refine ⟨t, ht, ⟨⟨hc, hd⟩, ?_⟩⟩
    have := hwf t ht
    omega

/-- C2: a slot allocation that passes every request-level validation is
rejected with a ConflictError if and only if some already-persisted slot
of the same class and the same day intersects the requested interval
under half-open semantics (existing.start less than new.end and
existing.end greater than new.start); slots of other classes never cause
the rejection, and back-to-back slots are accepted. -/
theorem timetable_conflict_iff (branchId classId : Nat) (subject : String)
    (tid : Nat) (day st en : Int) (room : Option String) (newId : Nat)
    (classes : List ClassRow) (users : List UserRow) (timetables : List TimetableSlot)
    (hclass : (classes.find? (fun c => c.id == classId && c.branch_id == branchId)).isSome)
    (hsub : strBlank subject = false)
    (hday : 1 ≤ day ∧ day ≤ 7)
    (hst : st < en)
    (hteacher : ∃ u ∈ users, u.id = tid ∧ u.role = "teacher" ∧ u.status = "Active" ∧
      u.branch_id = branchId)
    (hwf : ∀ t ∈ timetables, t.start_time < t.end_time) :
    errIsConflict (allocateSlot branchId classId (some subject) (some tid) (some day)
        (some st) (some en) room newId classes users timetables).2 = true ↔
      ∃ t ∈ timetables, t.class_id = classId ∧ t.day_of_week = day ∧
        t.start_time < en ∧ t.end_time > st := by
  obtain ⟨cd, hcd⟩ := Option.isSome_iff_exists.mp hclass
  unfold allocateSlot
  simp only [hcd]
  split
  · next h => exact absurd (by simpa using h) (by simp [hsub])
  split
  · next h => simp at h
  split
  · next h =>
      simp only [Option.isNone_some, Bool.false_or, Bool.or_eq_true, decide_eq_true_eq,
        Option.getD_some] at h
      omega
  split
  · next h => simp at h
  split
  · next h => simp only [Option.getD_some] at h; omega
  split
  · next h =>
      simp only [Bool.not_eq_true', List.any_eq_false, Bool.and_eq_true, beq_iff_eq,
        Option.getD_some, not_and] at h
      obtain ⟨u, hu, h1, h2, h3, h4⟩ := hteacher
      exact absurd h4 (h u hu ⟨⟨h1, h2⟩, h3⟩)
  split
  · next hc =>
      simp only [Option.getD_some] at hc
      simp only [errIsConflict, true_iff]
      exact (conflictCheck_iff timetables classId day st en hst hwf).mp hc
  · next hc =>
      simp only [Option.getD_some] at hc
      have := fun h => hc ((conflictCheck_iff timetables classId day st en hst hwf).mpr h)
      simp only [errIsConflict, Bool.false_eq_true, false_iff]
      exact this

/-- C2 witness: with one slot 09:00-10:00 (540-600) on day 1 for class
1, requesting 09:30-10:30 (570-630) conflicts while the back-to-back
10:00-11:00 (600-660) does not. -/
theorem timetable_conflict_iff_witness :
    errIsConflict (allocateSlot 1 1 (some "Math") (some 9) (some 1) (some 570) (some 630)
        none 5
        [⟨1, 1, "A", none, "S", none, "First Semester", 30, none, none, "2024-25", "Active"⟩]
        [⟨9, "T", "teacher", "Active", 1⟩]
        [⟨2, 1, 1, "Math", 9, 1, 540, 600, none, "2024-25", "First Semester"⟩]).2 = true ∧
    errIsConflict (allocateSlot 1 1 (some "Math") (some 9) (some 1) (some 600) (some 660)
        none 5
        [⟨1, 1, "A", none, "S", none, "First Semester", 30, none, none, "2024-25", "Active"⟩]
        [⟨9, "T", "teacher", "Active", 1⟩]
        [⟨2, 1, 1, "Math", 9, 1, 540, 600, none, "2024-25", "First Semester"⟩]).2 = false := by
  constructor
  · exact (timetable_conflict_iff 1 1 "Math" 9 1 570 630 none 5
      [⟨1, 1, "A", none, "S", none, "First Semester", 30, none, none, "2024-25", "Active"⟩]
      [⟨9, "T", "teacher", "Active", 1⟩]
      [⟨2, 1, 1, "Math", 9, 1, 540, 600, none, "2024-25", "First Semester"⟩]
      (by decide) (by decide) (by decide) (by decide) (by decide) (by decide)).mpr
      (by decide)
  · simpa using (timetable_conflict_iff 1 1 "Math" 9 1 600 660 none 5
      [⟨1, 1, "A", none, "S", none, "First Semester", 30, none, none, "2024-25", "Active"⟩]
      [⟨9, "T", "teacher", "Active", 1⟩]
      [⟨2, 1, 1, "Math", 9, 1, 540, 600, none, "2024-25", "First Semester"⟩]
      (by decide) (by decide) (by decide) (by decide) (by decide) (by decide)).not.mpr
      (by decide)

/-! ### Claim C6: degenerate interval rejected before the overlap check -/

/-- C6: a slot request against an existing class whose start time is not
strictly before its end time fails with a ValidationError, for every
possible list of persisted slots, so the failure happens before (and
independently of) any overlap query, and the table is unchanged. -/
theorem allocate_degenerate_interval_validation (branchId classId : Nat)
    (subject : Option String) (teacher_id : Option Nat) (day_of_week : Option Int)
    (st en : Int) (room : Option String) (newId : Nat)
    (classes : List ClassRow) (users : List UserRow) (timetables : List TimetableSlot)
    (hclass : (classes.find? (fun c => c.id == classId && c.branch_id == branchId)).isSome)
    (h : en ≤ st) :
    (allocateSlot branchId classId subject teacher_id day_of_week (some st) (some en)
        room newId classes users timetables).1 = timetables ∧
    errIsValidation (allocateSlot branchId classId subject teacher_id day_of_week
        (some st) (some en) room newId classes users timetables).2 = true := by
  obtain ⟨cd, hcd⟩ := Option.isSome_iff_exists.mp hclass
  unfold allocateSlot
  simp only [hcd]
  split
  · exact ⟨rfl, rfl⟩
  split
  · exact ⟨rfl, rfl⟩
  split
  · exact ⟨rfl, rfl⟩
  split
  · exact ⟨rfl, rfl⟩
  split
  · exact ⟨rfl, rfl⟩
  · next hges =>
      exfalso
      simp only [Option.getD_some] at hges
      omega

/-- C6 witness: allocating with start = end (both 540) against an
existing class yields a validation error and leaves the single existing
slot list unchanged. -/
theorem allocate_degenerate_interval_validation_witness :
    (allocateSlot 1 1 (some "Math") (some 9) (some 1) (some 540) (some 540) none 5
        [⟨1, 1, "A", none, "S", none, "First Semester", 30, none, none, "2024-25", "Active"⟩]
        [⟨9, "T", "teacher", "Active", 1⟩]
        [⟨2, 1, 1, "Math", 9, 1, 540, 600, none, "2024-25", "First Semester"⟩]).1 =
      [⟨2, 1, 1, "Math", 9, 1, 540, 600, none, "2024-25", "First Semester"⟩] ∧
    errIsValidation (allocateSlot 1 1 (some "Math") (some 9) (some 1) (some 540) (some 540)
        none 5
        [⟨1, 1, "A", none, "S", none, "First Semester", 30, none, none, "2024-25", "Active"⟩]
        [⟨9, "T", "teacher", "Active", 1⟩]
        [⟨2, 1, 1, "Math", 9, 1, 540, 600, none, "2024-25", "First Semester"⟩]).2 = true :=
  allocate_degenerate_interval_validation 1 1 (some "Math") (some 9) (some 1) 540 540 none 5
    [⟨1, 1, "A", none, "S", none, "First Semester", 30, none, none, "2024-25", "Active"⟩]
    [⟨9, "T", "teacher", "Active", 1⟩]
    [⟨2, 1, 1, "Math", 9, 1, 540, 600, none, "2024-25", "First Semester"⟩]
    (by decide) (by decide)

/-! ### Claim C4: rollover atomicity -/

/-- C4: bulk-create is all-or-nothing.  For every request, oracle of row
failures and state: either the classes table is unchanged and the call
failed, or the call succeeded and the table gained exactly one copy per
source class of the resolved active year, with the reported count equal
to the number of source classes; moreover after a row failure (500) the
branch holds zero classes under the target year. -/
theorem rollover_all_or_nothing (branchId : Nat) (ny : Option String)
    (years : List AcademicYear) (classes : List ClassRow)
    (insertFails : Nat → Bool) (nextId : Nat) :
    (((rollover branchId ny years classes insertFails nextId).1 = classes ∧
      resIsOk (rollover branchId ny years classes insertFails nextId).2 = false) ∨
    (∃ y, resolveActiveYearGlobal years = some y ∧
      (rollover branchId ny years classes insertFails nextId).1 =
        classes ++ (sourceClassesOf branchId y.year_name classes).enum.map
          (fun p => rolloverCopy (nextId + p.1) (ny.getD "") p.2) ∧
      (rollover branchId ny years classes insertFails nextId).2 =
        .ok ⟨(sourceClassesOf branchId y.year_name classes).length, y.year_name, ny.getD ""⟩)) ∧
    (∀ m, (rollover branchId ny years classes insertFails nextId).2 =
        .error (.server m) →
      targetClassCount branchId (ny.getD "")
        (rollover branchId ny years classes insertFails nextId).1 = 0) := by
  unfold rollover
  cases hy : resolveActiveYearGlobal years with
  | none =>
    simp only [hy]
    split
    · exact ⟨Or.inl ⟨rfl, rfl⟩, fun m h => by cases h⟩
    · exact ⟨Or.inl ⟨rfl, rfl⟩, fun m h => by cases h⟩
  | some y =>
    simp only [hy]
    split
    · exact ⟨Or.inl ⟨rfl, rfl⟩, fun m h => by cases h⟩
    split
    · exact ⟨Or.inl ⟨rfl, rfl⟩, fun m h => by cases h⟩
    split
    · exact ⟨Or.inl ⟨rfl, rfl⟩, fun m h => by cases h⟩
    split
    · next hguard hins =>
        refine ⟨Or.inl ⟨rfl, rfl⟩, fun m h => ?_⟩
        simpa using hguard
    · next hguard hins =>
        refine ⟨Or.inr ⟨y, rfl, rfl, ?_⟩, fun m h => by cases h⟩
        simp [List.length_map, List.enum_length]

/-- C4 witness: one source class and an always-failing INSERT oracle
leave zero classes under the target year 2025-26. -/
theorem rollover_all_or_nothing_witness :
    targetClassCount 1 "2025-26"
      (rollover 1 (some "2025-26") [⟨"2024-25", 0, 10, "active", some 1⟩]
        [⟨1, 1, "A", none, "S", none, "First Semester", 30, none, none, "2024-25", "Active"⟩]
        alwaysInsertFailure 100).1 = 0 :=
  (rollover_all_or_nothing 1 (some "2025-26") [⟨"2024-25", 0, 10, "active", some 1⟩]
    [⟨1, 1, "A", none, "S", none, "First Semester", 30, none, none, "2024-25", "Active"⟩]
    alwaysInsertFailure 100).2 "Failed to bulk create classes" (by decide)

/-! ### Claim C5: rollover duplicate-target guard and idempotence -/

/-- Successful bulk-create runs have passed every guard: the target year
is non-blank, some active year resolved, its source classes are
non-empty, the branch held no classes under the target year, and the
post-state appends one copy per source class. -/
theorem rollover_ok_shape (branchId : Nat) (ny : Option String)
    (years : List AcademicYear) (classes : List ClassRow)
    (insertFails : Nat → Bool) (nextId : Nat)
    (hok : resIsOk (rollover branchId ny years classes insertFails nextId).2 = true) :
    strBlank (ny.getD "") = false ∧
    ∃ y, resolveActiveYearGlobal years = some y ∧
      sourceClassesOf branchId y.year_name classes ≠ [] ∧
      targetClassCount branchId (ny.getD "") classes = 0 ∧
      (rollover branchId ny years classes insertFails nextId).1 =
        classes ++ (sourceClassesOf branchId y.year_name classes).enum.map
          (fun p => rolloverCopy (nextId + p.1) (ny.getD "") p.2) := by
  unfold rollover at hok ⊢
  cases hy : resolveActiveYearGlobal years with
  | none =>
    simp only [hy] at hok ⊢
    split at hok
    · cases hok
    · cases hok
  | some y =>
    simp only [hy] at hok ⊢
    split at hok
    · cases hok
    split at hok
    · cases hok
    split at hok
    · cases hok
    split at hok
    · cases hok
    next hblank hemp hguard hins =>
      refine ⟨by simpa using hblank, y, rfl, by simpa using hemp, by simpa using hguard, ?_⟩
      rw [if_neg hblank]
      rw [if_neg hemp, if_neg hguard, if_neg hins]

/-- Guard of the bulk-create: when the branch already holds a class
under the target year (and the earlier steps pass), the handler answers
409 and mutates nothing. -/
theorem rollover_guard_conflict (branchId : Nat) (ny : Option String)
    (years : List AcademicYear) (classes : List ClassRow)
    (insertFails : Nat → Bool) (nextId : Nat)
    (hny : strBlank (ny.getD "") = false)
    (hy : ∃ y, resolveActiveYearGlobal years = some y ∧
      sourceClassesOf branchId y.year_name classes ≠ [])
    (htc : targetClassCount branchId (ny.getD "") classes ≠ 0) :
    rollover branchId ny years classes insertFails nextId =
      (classes, .error (.conflict "Classes already exist for the specified academic year")) := by
  obtain ⟨y, hyeq, hsrc⟩ := hy
  unfold rollover
  rw [if_neg (by simp [hny])]
  simp only [hyeq]
  rw [if_neg (by simpa using hsrc), if_pos (by simpa using htc)]

/-- C5: rollover answers a ConflictError and creates nothing when the
branch already holds classes under the target year (the earlier
resolution steps having passed); consequently, after a successful
rollover, repeating the call with the same target year fails with that
ConflictError and leaves the table unchanged. -/
theorem rollover_idempotence_guard (branchId : Nat) (ny : Option String)
    (years : List AcademicYear) (classes : List ClassRow)
    (insertFails insertFails2 : Nat → Bool) (nextId nextId2 : Nat) :
    ((strBlank (ny.getD "") = false) →
      (∃ y, resolveActiveYearGlobal years = some y ∧
        sourceClassesOf branchId y.year_name classes ≠ []) →
      targetClassCount branchId (ny.getD "") classes ≠ 0 →
      rollover branchId ny years classes insertFails nextId =
        (classes, .error (.conflict "Classes already exist for the specified academic year"))) ∧
    (resIsOk (rollover branchId ny years classes insertFails nextId).2 = true →
      rollover branchId ny years
          (rollover branchId ny years classes insertFails nextId).1 insertFails2 nextId2 =
        ((rollover branchId ny years classes insertFails nextId).1,
         .error (.conflict "Classes already exist for the specified academic year"))) := by
  constructor
  · exact fun h1 h2 h3 =>
      rollover_guard_conflict branchId ny years classes insertFails nextId h1 h2 h3
  · intro hok
    obtain ⟨hny, y, hyeq, hsrc, htc, hstate⟩ :=
      rollover_ok_shape branchId ny years classes insertFails nextId hok
    set newRows := (sourceClassesOf branchId y.year_name classes).enum.map
      (fun p => rolloverCopy (nextId + p.1) (ny.getD "") p.2) with hnr
    have hsrc2 : sourceClassesOf branchId y.year_name (classes ++ newRows) ≠ [] := by
      unfold sourceClassesOf at hsrc ⊢
      rw [List.filter_append]
      intro hcontra
      exact hsrc (List.append_eq_nil.mp hcontra).1
    have hrows : ∀ r ∈ newRows, (r.branch_id == branchId &&
        r.academic_year == (ny.getD "")) = true := by
      intro r hr
      obtain ⟨p, hp, rfl⟩ := List.mem_map.mp hr
      have hmem : p.2 ∈ sourceClassesOf branchId y.year_name classes :=
        List.snd_mem_of_mem_enum hp
      have := List.of_mem_filter hmem
      simp only [Bool.and_eq_true, beq_iff_eq] at this
      simp [rolloverCopy, this.1.1]
    have hlen : newRows.length ≠ 0 := by
      simp only [hnr, List.length_map, List.enum_length]
      intro hzero
      exact hsrc (List.length_eq_zero.mp hzero)
    have htc2 : targetClassCount branchId (ny.getD "") (classes ++ newRows) ≠ 0 := by
      unfold targetClassCount at htc ⊢
      rw [List.filter_append]
      rw [List.filter_eq_self.mpr hrows]
      simp only [List.length_append]
      omega
    rw [hstate]
    exact rollover_guard_conflict branchId ny years (classes ++ newRows) insertFails2 nextId2
      hny ⟨y, hyeq, hsrc2⟩ htc2

/-- C5 witness: concrete instances of the guard (a class already sits
under year 2025-26) and of the second-call-after-success behaviour. -/
theorem rollover_idempotence_guard_witness :
    (rollover 1 (some "2025-26") [⟨"2024-25", 0, 10, "active", some 1⟩]
        [⟨1, 1, "A", none, "S", none, "First Semester", 30, none, none, "2024-25", "Active"⟩,
         ⟨2, 1, "B", none, "S", none, "First Semester", 30, none, none, "2025-26", "Active"⟩]
        noInsertFailure 100 =
      ([⟨1, 1, "A", none, "S", none, "First Semester", 30, none, none, "2024-25", "Active"⟩,
        ⟨2, 1, "B", none, "S", none, "First Semester", 30, none, none, "2025-26", "Active"⟩],
       .error (.conflict "Classes already exist for the specified academic year"))) ∧
    (rollover 1 (some "2025-26") [⟨"2024-25", 0, 10, "active", some 1⟩]
        (rollover 1 (some "2025-26") [⟨"2024-25", 0, 10, "active", some 1⟩]
          [⟨1, 1, "A", none, "S", none, "First Semester", 30, none, none, "2024-25", "Active"⟩]
          noInsertFailure 100).1 noInsertFailure 200 =
      ((rollover 1 (some "2025-26") [⟨"2024-25", 0, 10, "active", some 1⟩]
          [⟨1, 1, "A", none, "S", none, "First Semester", 30, none, none, "2024-25", "Active"⟩]
          noInsertFailure 100).1,
       .error (.conflict "Classes already exist for the specified academic year"))) :=
  ⟨(rollover_idempotence_guard 1 (some "2025-26") [⟨"2024-25", 0, 10, "active", some 1⟩]
      [⟨1, 1, "A", none, "S", none, "First Semester", 30, none, none, "2024-25", "Active"⟩,
       ⟨2, 1, "B", none, "S", none, "First Semester", 30, none, none, "2025-26", "Active"⟩]
      noInsertFailure noInsertFailure 100 100).1 (by decide)
      ⟨⟨"2024-25", 0, 10, "active", some 1⟩, by decide, by decide⟩ (by decide),
   (rollover_idempotence_guard 1 (some "2025-26") [⟨"2024-25", 0, 10, "active", some 1⟩]
      [⟨1, 1, "A", none, "S", none, "First Semester", 30, none, none, "2024-25", "Active"⟩]
      noInsertFailure noInsertFailure 100 200).2 (by decide)⟩

/-! ### Claim C7: rollover active-year resolution -/

/-- C7 counterexample: a branch with no active academic year of its own
can still roll over.  Branch 2 owns the only active year Y2; branch 1
has zero active years, yet its bulk-create succeeds, sourcing branch 2's
year, instead of failing with a ValidationError as the claim states. -/
theorem rollover_uses_other_branch_active_year :
    countActiveYears 1 [⟨"Y2", 0, 10, "active", some 2⟩] = 0 ∧
    resIsOk (rollover 1 (some "NEW") [⟨"Y2", 0, 10, "active", some 2⟩]
      [⟨1, 1, "A", none, "S", none, "First Semester", 30, none, none, "Y2", "Active"⟩]
      noInsertFailure 100).2 = true := by
  decide

/-- C7 (amended): the rollover resolves the active academic year
globally, with no branch filter (most recent start date wins); it fails
with the ValidationError only when no branch at all has an active year,
and on success the reported source year is the globally resolved one. -/
theorem rollover_resolves_global_active_year (branchId : Nat) (ny : Option String)
    (years : List AcademicYear) (classes : List ClassRow)
    (insertFails : Nat → Bool) (nextId : Nat)
    (hny : strBlank (ny.getD "") = false) :
    (resolveActiveYearGlobal years = none →
      rollover branchId ny years classes insertFails nextId =
        (classes, .error (.validation "No active academic year found"))) ∧
    (∀ y d, resolveActiveYearGlobal years = some y →
      (rollover branchId ny years classes insertFails nextId).2 = .ok d →
      d.sourceYear = y.year_name) := by
  constructor
  · intro h
    unfold rollover
    rw [if_neg (by simp [hny])]
    simp only [h]
  · intro y d hy hok
    unfold rollover at hok
    rw [if_neg (by simp [hny])] at hok
    simp only [hy] at hok
    split at hok
    · cases hok
    split at hok
    · cases hok
    split at hok
    · cases hok
    · injection hok with h
      rw [← h]

/-- C7 witness: with no active year anywhere the rollover answers the
validation error, and with branch 2's year Y2 active the reported source
year of a successful branch-1 rollover is Y2. -/
theorem rollover_resolves_global_active_year_witness :
    (rollover 1 (some "NEW") [⟨"Y2", 0, 10, "completed", some 2⟩]
        [⟨1, 1, "A", none, "S", none, "First Semester", 30, none, none, "Y2", "Active"⟩]
        noInsertFailure 100 =
      ([⟨1, 1, "A", none, "S", none, "First Semester", 30, none, none, "Y2", "Active"⟩],
       .error (.validation "No active academic year found"))) ∧
    (rollover 1 (some "NEW") [⟨"Y2", 0, 10, "active", some 2⟩]
        [⟨1, 1, "A", none, "S", none, "First Semester", 30, none, none, "Y2", "Active"⟩]
        noInsertFailure 100).2 =
      .ok ⟨1, "Y2", "NEW"⟩ ∧
    "Y2" = (AcademicYear.year_name ⟨"Y2", 0, 10, "active", some 2⟩) :=
  ⟨(rollover_resolves_global_active_year 1 (some "NEW")
      [⟨"Y2", 0, 10, "completed", some 2⟩]
      [⟨1, 1, "A", none, "S", none, "First Semester", 30, none, none, "Y2", "Active"⟩]
      noInsertFailure 100 (by decide)).1 (by decide),
   by decide,
   (rollover_resolves_global_active_year 1 (some "NEW")
      [⟨"Y2", 0, 10, "active", some 2⟩]
      [⟨1, 1, "A", none, "S", none, "First Semester", 30, none, none, "Y2", "Active"⟩]
      noInsertFailure 100 (by decide)).2 ⟨"Y2", 0, 10, "active", some 2⟩
      ⟨1, "Y2", "NEW"⟩ (by decide) (by decide)⟩

/-! ### Claim C3: attendance uniqueness per (student, date) -/

/-- Mapping a row transformation that fixes student and date over the
attendance table preserves the per-(student, date) uniqueness. -/
theorem inv_map_preserving (att : List AttendanceRow) (f : AttendanceRow → AttendanceRow)
    (hf : ∀ r, (f r).student_id = r.student_id ∧ (f r).attendance_date = r.attendance_date)
    (hinv : attendanceAtMostOnePerStudentDate att) :
    attendanceAtMostOnePerStudentDate (att.map f) := by
  unfold attendanceAtMostOnePerStudentDate at hinv ⊢
  rw [List.pairwise_map]
  exact hinv.imp (fun {a b} h => by
    rw [(hf a).1, (hf a).2, (hf b).1, (hf b).2]
    exact h)

/-- Appending a row whose (student, date) pair clashes with no existing
row preserves the per-(student, date) uniqueness. -/
theorem inv_append_single (att : List AttendanceRow) (row : AttendanceRow)
    (hinv : attendanceAtMostOnePerStudentDate att)
    (hnew : ∀ r ∈ att,
      ¬(r.student_id = row.student_id ∧ r.attendance_date = row.attendance_date)) :
    attendanceAtMostOnePerStudentDate (att ++ [row]) := by
  unfold attendanceAtMostOnePerStudentDate at hinv ⊢
  rw [List.pairwise_append]
  refine ⟨hinv, by simp, ?_⟩
  intro a ha b hb
  simp only [List.mem_singleton] at hb
  subst hb
  exact hnew a ha

/-- The per-entry attendance loop preserves the per-(student, date)
uniqueness: updates keep the key columns, and an INSERT only succeeds
after the unique-constraint test against the whole table. -/
theorem processEntries_inv (bid uid cid : Nat) (date : String) (subj : Option String)
    (ay : String) (sids : List Nat) (entries : List AttendanceEntry) :
    ∀ (att : List AttendanceRow) (cr up nid : Nat)
      (out : List AttendanceRow × Nat × Nat × Nat),
      attendanceAtMostOnePerStudentDate att →
      processAttendanceEntries bid uid cid date subj ay sids entries
        (att, cr, up, nid) = some out →
      attendanceAtMostOnePerStudentDate out.1 := by
  induction entries with
  | nil =>
    intro att cr up nid out hinv heq
    simp only [processAttendanceEntries] at heq
    cases heq
    exact hinv
  | cons e rest ih =>
    intro att cr up nid out hinv heq
    simp only [processAttendanceEntries] at heq
    split at heq
    · refine ih _ _ _ _ _ (inv_map_preserving _ _ (fun r => ⟨?_, ?_⟩) hinv) heq
      · split <;> rfl
      · split <;> rfl
    · split at heq
      · next hguard =>
          refine ih _ _ _ _ _ (inv_append_single _ _ hinv ?_) heq
          intro r hr hcontra
          simp only [Bool.and_eq_true, List.all_eq_true] at hguard
          have hall := hguard.2 r hr
          simp only [Bool.not_eq_true', Bool.and_eq_false_iff, beq_eq_false_iff_ne] at hall
          rcases hall with h1 | h2
          · exact h1 hcontra.1
          · exact h2 hcontra.2
      · cases heq

/-- C3 (amended): after any markAttendance call on a table satisfying
the at-most-one-record-per-(student, attendance_date) invariant, the
resulting table still satisfies it; the lookup is by (student, date,
class), a hit is updated in place, and an insert that would duplicate a
(student, date) pair fails on the unique constraint, aborting the whole
transaction, so duplicates never appear. -/
theorem markAttendance_unique_student_date (branchId userId : Nat) (role : String)
    (classId : Nat) (attendance_date : Option String) (students : List AttendanceEntry)
    (subject : Option String) (nextId : Nat) (classes : List ClassRow)
    (studentIds : List Nat) (attendance : List AttendanceRow)
    (hinv : attendanceAtMostOnePerStudentDate attendance) :
    attendanceAtMostOnePerStudentDate
      (markAttendance branchId userId role classId attendance_date students subject
        nextId classes studentIds attendance).1 := by
  unfold markAttendance
  cases hc : classes.find? (fun c => c.id == classId && c.branch_id == branchId) with
  | none => exact hinv
  | some cd =>
    simp only [hc]
    split
    · exact hinv
    split
    · exact hinv
    split
    · exact hinv
    split
    · exact hinv
    split
    · exact hinv
    · split
      · next att2 created updated x heq =>
          exact processEntries_inv branchId userId classId (attendance_date.getD "")
            subject cd.academic_year studentIds students attendance 0 0 nextId
            (att2, created, updated, x) hinv heq
      · exact hinv

/-- C3 witness: a concrete resubmission for the same class and day: the
table with one Present row for student 5 is re-marked Absent; the result
keeps exactly one row per (student, date). -/
theorem markAttendance_unique_student_date_witness :
    attendanceAtMostOnePerStudentDate
      [⟨100, 1, 5, 1, 9, "2025-05-01", "Present", none, none, "2024-25"⟩] ∧
    attendanceAtMostOnePerStudentDate
      (markAttendance 1 9 "admin" 1 (some "2025-05-01") [⟨some 5, "Absent", none⟩] none 101
        [⟨1, 1, "A", none, "S", some 9, "First Semester", 30, none, none, "2024-25", "Active"⟩]
        [5]
        [⟨100, 1, 5, 1, 9, "2025-05-01", "Present", none, none, "2024-25"⟩]).1 :=
  ⟨by decide,
   markAttendance_unique_student_date 1 9 "admin" 1 (some "2025-05-01")
     [⟨some 5, "Absent", none⟩] none 101
     [⟨1, 1, "A", none, "S", some 9, "First Semester", 30, none, none, "2024-25", "Active"⟩]
     [5]
     [⟨100, 1, 5, 1, 9, "2025-05-01", "Present", none, none, "2024-25"⟩]
     (by decide)⟩

/-- C3 counterexample: the claim says the lookup is by (student, date)
and that a second submission for the same student and day updates the
existing record to the latest status.  The code looks up by (student,
date, class): re-marking student 5 for the same date through a different
class (class 2) misses the class-1 row, attempts an INSERT that violates
the (student, date) unique constraint, and the whole batch fails with a
500, leaving the old Present status, not the claimed updated record. -/
theorem markAttendance_cross_class_resubmission_fails :
    (markAttendance 1 9 "admin" 2 (some "2025-05-01") [⟨some 5, "Absent", none⟩] none 101
        [⟨1, 1, "A", none, "S", some 9, "First Semester", 30, none, none, "2024-25", "Active"⟩,
         ⟨2, 1, "B", none, "S", some 9, "First Semester", 30, none, none, "2024-25", "Active"⟩]
        [5]
        [⟨100, 1, 5, 1, 9, "2025-05-01", "Present", none, none, "2024-25"⟩]) =
      ([⟨100, 1, 5, 1, 9, "2025-05-01", "Present", none, none, "2024-25"⟩],
       .error (.server "Failed to mark attendance")) ∧
    (markAttendance 1 9 "admin" 2 (some "2025-05-01") [⟨some 5, "Absent", none⟩] none 101
        [⟨1, 1, "A", none, "S", some 9, "First Semester", 30, none, none, "2024-25", "Active"⟩,
         ⟨2, 1, "B", none, "S", some 9, "First Semester", 30, none, none, "2024-25", "Active"⟩]
        [5]
        [⟨100, 1, 5, 1, 9, "2025-05-01", "Present", none, none, "2024-25"⟩]).1.map
      (fun r => r.status) = ["Present"] := by
  decide

/-! ### Claim C9: attendance batch validation and counts -/

/-- The per-entry loop increments exactly one of the created and updated
counters per entry, so on success their sum grows by the number of
entries processed. -/
theorem processEntries_counts (bid uid cid : Nat) (date : String) (subj : Option String)
    (ay : String) (sids : List Nat) (entries : List AttendanceEntry) :
    ∀ (att : List AttendanceRow) (cr up nid : Nat)
      (out : List AttendanceRow × Nat × Nat × Nat),
      processAttendanceEntries bid uid cid date subj ay sids entries
        (att, cr, up, nid) = some out →
      out.2.1 + out.2.2.1 = cr + up + entries.length := by
  induction entries with
  | nil =>
    intro att cr up nid out heq
    simp only [processAttendanceEntries] at heq
    cases heq
    simp
  | cons e rest ih =>
    intro att cr up nid out heq
    simp only [processAttendanceEntries] at heq
    split at heq
    · have := ih _ _ _ _ _ heq
      simp only [List.length_cons]
      omega
    · split at heq
      · have := ih _ _ _ _ _ heq
        simp only [List.length_cons]
        omega
      · cases heq

/-- A successful markAttendance reports created and updated counts whose
sum is the number of entries, and a total equal to that number. -/
theorem markAttendance_ok_counts (branchId userId : Nat) (role : String)
    (classId : Nat) (attendance_date : Option String) (students : List AttendanceEntry)
    (subject : Option String) (nextId : Nat) (classes : List ClassRow)
    (studentIds : List Nat) (attendance : List AttendanceRow)
    (att2 : List AttendanceRow) (cr up tot : Nat)
    (heq : markAttendance branchId userId role classId attendance_date students subject
      nextId classes studentIds attendance = (att2, .ok (cr, up, tot))) :
    cr + up = students.length ∧ tot = students.length := by
  unfold markAttendance at heq
  cases hc : classes.find? (fun c => c.id == classId && c.branch_id == branchId) with
  | none => simp only [hc] at heq; simp at heq
  | some cd =>
    simp only [hc] at heq
    split at heq
    · simp at heq
    split at heq
    · simp at heq
    split at heq
    · simp at heq
    split at heq
    · simp at heq
    split at heq
    · simp at heq
    · split at heq
      · rename_i attx crx upx x hpe
        have hcounts := processEntries_counts branchId userId classId
          (attendance_date.getD "") subject cd.academic_year studentIds students
          attendance 0 0 nextId (attx, crx, upx, x) hpe
        simp only [Prod.mk.injEq, Except.ok.injEq] at heq
        obtain ⟨h1, h2, h3, h4⟩ := heq
        subst h2
        subst h3
        subst h4
        simp only at hcounts
        omega
      · simp at heq

/-- Batch validation of markAttendance: an entry without a student id or
with a status outside Present/Absent/Late makes the whole call fail with
the 400 validation error before any mutation. -/
theorem markAttendance_batch_validation (branchId userId : Nat) (role : String)
    (classId : Nat) (d : String) (students : List AttendanceEntry)
    (subject : Option String) (nextId : Nat) (classes : List ClassRow)
    (studentIds : List Nat) (attendance : List AttendanceRow) (cd : ClassRow)
    (hc : classes.find? (fun c => c.id == classId && c.branch_id == branchId) = some cd)
    (hrole : (role == "teacher" && cd.teacher_id != some userId) = false)
    (hfmt : validDateFormat d = true)
    (hne : students ≠ [])
    (hbad : ∃ e ∈ students, e.student_id = none ∨
      e.status ∉ (["Present", "Absent", "Late"] : List String)) :
    markAttendance branchId userId role classId (some d) students subject nextId
        classes studentIds attendance =
      (attendance, .error (.validation "Invalid student data or status")) := by
  unfold markAttendance
  simp only [hc]
  rw [if_neg (by simp [hrole])]
  rw [if_neg (by simp)]
  rw [if_neg (by simpa using hne)]
  rw [if_neg (by simp [hfmt])]
  cases hfind : students.find? (fun e => e.student_id.isNone ||
      !(["Present", "Absent", "Late"].contains e.status)) with
  | none =>
    exfalso
    obtain ⟨e, he, hbad'⟩ := hbad
    have := List.find?_eq_none.mp hfind e he
    rcases hbad' with h1 | h2
    · simp [h1] at this
    · simp [h2] at this
  | some e => simp only [hfind]

/-- C9 counterexample: the claim says every entry must have a known
student or the batch is rejected with a ValidationError.  The code only
checks that a student id is present: an entry with the unknown student 7
passes validation, the INSERT then violates the foreign key on
branch.students, and the call fails with a 500 server error, not a
ValidationError (the rollback still leaves the table unchanged). -/
theorem markAttendance_unknown_student_not_validation :
    errIsValidation (markAttendance 1 9 "admin" 1 (some "2025-05-01")
      [⟨some 7, "Present", none⟩] none 101
      [⟨1, 1, "A", none, "S", some 9, "First Semester", 30, none, none, "2024-25", "Active"⟩]
      [] []).2 = false ∧
    markAttendance 1 9 "admin" 1 (some "2025-05-01")
      [⟨some 7, "Present", none⟩] none 101
      [⟨1, 1, "A", none, "S", some 9, "First Semester", 30, none, none, "2024-25", "Active"⟩]
      [] [] = ([], .error (.server "Failed to mark attendance")) := by
  decide

/-- C9 (amended): the batch is validated before any mutation — every
entry must carry a student id and a status in Present/Absent/Late, and
any offender rejects the whole batch with a ValidationError, leaving the
table unchanged; student existence is enforced only by the foreign key
during the insert, whose failure aborts the whole transaction; on
success the created and updated counts sum to the number of entries
processed. -/
theorem markAttendance_validation_and_counts (branchId userId : Nat) (role : String)
    (classId : Nat) (d : String) (students : List AttendanceEntry)
    (subject : Option String) (nextId : Nat) (classes : List ClassRow)
    (studentIds : List Nat) (attendance : List AttendanceRow) :
    (∀ cd, classes.find? (fun c => c.id == classId && c.branch_id == branchId) = some cd →
      (role == "teacher" && cd.teacher_id != some userId) = false →
      validDateFormat d = true →
      students ≠ [] →
      (∃ e ∈ students, e.student_id = none ∨
        e.status ∉ (["Present", "Absent", "Late"] : List String)) →
      markAttendance branchId userId role classId (some d) students subject nextId
          classes studentIds attendance =
        (attendance, .error (.validation "Invalid student data or status"))) ∧
    (∀ att2 cr up tot,
      markAttendance branchId userId role classId (some d) students subject nextId
          classes studentIds attendance = (att2, .ok (cr, up, tot)) →
      cr + up = students.length ∧ tot = students.length) :=
  ⟨fun cd hc hrole hfmt hne hbad =>
     markAttendance_batch_validation branchId userId role classId d students subject
       nextId classes studentIds attendance cd hc hrole hfmt hne hbad,
   fun att2 cr up tot heq =>
     markAttendance_ok_counts branchId userId role classId (some d) students subject
       nextId classes studentIds attendance att2 cr up tot heq⟩

/-- C9 witness: a batch holding an entry without a student id is
rejected with the validation error and mutates nothing; a valid
one-entry batch reports counts summing to one. -/
theorem markAttendance_validation_and_counts_witness :
    (markAttendance 1 9 "admin" 1 (some "2025-05-01")
        [⟨none, "Present", none⟩] none 101
        [⟨1, 1, "A", none, "S", some 9, "First Semester", 30, none, none, "2024-25", "Active"⟩]
        [5] [] =
      ([], .error (.validation "Invalid student data or status"))) ∧
    (1 + 0 = ([⟨some 5, "Present", none⟩] : List AttendanceEntry).length ∧
      1 = ([⟨some 5, "Present", none⟩] : List AttendanceEntry).length) :=
  ⟨(markAttendance_validation_and_counts 1 9 "admin" 1 "2025-05-01"
      [⟨none, "Present", none⟩] none 101
      [⟨1, 1, "A", none, "S", some 9, "First Semester", 30, none, none, "2024-25", "Active"⟩]
      [5] []).1
      ⟨1, 1, "A", none, "S", some 9, "First Semester", 30, none, none, "2024-25", "Active"⟩
      (by decide) (by decide) (by decide) (by decide)
      ⟨⟨none, "Present", none⟩, by decide, Or.inl rfl⟩,
   (markAttendance_validation_and_counts 1 9 "admin" 1 "2025-05-01"
      [⟨some 5, "Present", none⟩] none 101
      [⟨1, 1, "A", none, "S", some 9, "First Semester", 30, none, none, "2024-25", "Active"⟩]
      [5] []).2
      [⟨101, 1, 5, 1, 9, "2025-05-01", "Present", none, none, "2024-25"⟩] 1 0 1
      (by decide)⟩

/-! ### Claim C10: capacity guard and the zero bypass -/

/-- A truthy capacity outside the range is rejected by the shared
middleware. -/
theorem validateClassData_capacity_invalid (class_name standard academic_year : Option String)
    (c : Int)
    (hname : strBlank (class_name.getD "") = false)
    (hstd : strBlank (standard.getD "") = false)
    (hyr : strBlank (academic_year.getD "") = false)
    (hc0 : c ≠ 0) (hrange : c < 1 ∨ c > 100) :
    validateClassData class_name standard academic_year (some c) =
      some (.validation "Capacity must be between 1 and 100") := by
  unfold validateClassData
  rw [if_neg (by simp [hname]), if_neg (by simp [hstd]), if_neg (by simp [hyr]),
    if_pos (by
      simp only [Option.getD_some, Bool.and_eq_true, bne_iff_ne, ne_eq,
        Bool.or_eq_true, decide_eq_true_eq]
      exact ⟨hc0, hrange⟩)]

/-- A falsy capacity, absent or zero, bypasses the guard, and the
stored value `capacity || 30` then defaults to 30. -/
theorem validateClassData_capacity_falsy (class_name standard academic_year : Option String)
    (cap : Option Int)
    (hname : strBlank (class_name.getD "") = false)
    (hstd : strBlank (standard.getD "") = false)
    (hyr : strBlank (academic_year.getD "") = false)
    (hcap : cap = some 0 ∨ cap = none) :
    validateClassData class_name standard academic_year cap = none ∧
    jsNumOr cap 30 = 30 := by
  constructor
  · unfold validateClassData
    rw [if_neg (by simp [hname]), if_neg (by simp [hstd]), if_neg (by simp [hyr]),
      if_neg (by rcases hcap with rfl | rfl <;> simp)]
  · unfold jsNumOr
    rcases hcap with rfl | rfl <;> simp

/-- C10: in class create and class update a provided capacity outside
[1, 100] is rejected with a validation error, except that capacity 0 is
falsy in the guard `capacity && (capacity < 1 || capacity > 100)` and
slips through, after which `capacity || 30` stores the default 30; an
omitted capacity likewise passes and defaults to 30. -/
theorem class_capacity_contract (branchId : Nat) (class_name grade standard : Option String)
    (teacher_id : Option Nat) (semester : Option String)
    (room_number schedule academic_year : Option String) (newId id : Nat)
    (classes : List ClassRow) (users : List UserRow)
    (hname : strBlank (class_name.getD "") = false)
    (hstd : strBlank (standard.getD "") = false)
    (hyr : strBlank (academic_year.getD "") = false) :
    (∀ c : Int, c ≠ 0 → (c < 1 ∨ c > 100) →
      createClass branchId class_name grade standard teacher_id semester (some c)
          room_number schedule academic_year newId classes users =
        (classes, .error (.validation "Capacity must be between 1 and 100")) ∧
      updateClass branchId id class_name grade standard teacher_id semester (some c)
          room_number schedule academic_year classes users =
        (classes, .error (.validation "Capacity must be between 1 and 100"))) ∧
    (∀ cap : Option Int, (cap = some 0 ∨ cap = none) →
      validateClassData class_name standard academic_year cap = none ∧
      jsNumOr cap 30 = 30) ∧
    (∀ (cap : Option Int), (cap = some 0 ∨ cap = none) →
      ∀ row, (createClass branchId class_name grade standard teacher_id semester cap
          room_number schedule academic_year newId classes users).2 = .ok row →
        row.capacity = 30) := by
  refine ⟨?_, ?_, ?_⟩
  · intro c hc0 hrange
    have hval := validateClassData_capacity_invalid class_name standard academic_year c
      hname hstd hyr hc0 hrange
    constructor
    · unfold createClass
      simp only [hval]
    · unfold updateClass
      simp only [hval]
  · intro cap hcap
    exact validateClassData_capacity_falsy class_name standard academic_year cap
      hname hstd hyr hcap
  · intro cap hcap row heq
    have hnum := (validateClassData_capacity_falsy class_name standard academic_year cap
      hname hstd hyr hcap).2
    have hval := (validateClassData_capacity_falsy class_name standard academic_year cap
      hname hstd hyr hcap).1
    unfold createClass at heq
    simp only [hval] at heq
    split at heq
    · simp at heq
    split at heq
    · simp at heq
    split at heq
    · simp at heq
    · simp only [Except.ok.injEq] at heq
      rw [← heq]
      exact hnum

/-- C10 witness: capacity 150 is rejected by both create and update;
capacity 0 passes the middleware and a create with capacity 0 stores
30. -/
theorem class_capacity_contract_witness :
    (createClass 1 (some "A") none (some "S") none none (some 150) none none
        (some "2024-25") 10 [] [] =
      ([], .error (.validation "Capacity must be between 1 and 100")) ∧
     updateClass 1 7 (some "A") none (some "S") none none (some 150) none none
        (some "2024-25") [] [] =
      ([], .error (.validation "Capacity must be between 1 and 100"))) ∧
    (validateClassData (some "A") (some "S") (some "2024-25") (some 0) = none ∧
      jsNumOr (some 0) 30 = 30) ∧
    (⟨10, 1, "A", none, "S", none, "First Semester", 30, none, none, "2024-25",
        "Active"⟩ : ClassRow).capacity = 30 :=
  ⟨(class_capacity_contract 1 (some "A") none (some "S") none none none none
      (some "2024-25") 10 7 [] [] (by decide) (by decide) (by decide)).1 150
      (by decide) (by decide),
   (class_capacity_contract 1 (some "A") none (some "S") none none none none
      (some "2024-25") 10 7 [] [] (by decide) (by decide) (by decide)).2.1 (some 0)
      (Or.inl rfl),
   (class_capacity_contract 1 (some "A") none (some "S") none none none none
      (some "2024-25") 10 7 [] [] (by decide) (by decide) (by decide)).2.2 (some 0)
      (Or.inl rfl)
      ⟨10, 1, "A", none, "S", none, "First Semester", 30, none, none, "2024-25", "Active"⟩
      (by decide)⟩

end ClassesService
